import Mathlib

/-!
Verification of the stream pacing / throttling engine of `yup_ndi`
(`src/python/yup_ndi/orchestrator.py`), as a shallow embedding in Lean.

Modelling conventions:
* Python `float` values are embedded as exact rationals (`ℚ`); every finite
  IEEE-754 double is a rational, and every concrete input used in a theorem
  below is chosen so that the Python floating-point evaluation is exact, so
  the rational model agrees with CPython at those points.
* Python `int(x)` on a numeric value truncates toward zero; `pyInt` models it.
* Mutable attributes of `_NDIStream` become fields of `StreamState`; one call
  to `advance_and_send` becomes the pure step `advanceAndSend`, whose extra
  `TickInput` fields supply what the collaborators (renderer `advance` result,
  sender `get_connection_count` result) would return on that tick.
* Exceptions are embedded with `Except` / `Option` error results.
-/

namespace YupNdi

/-- Python `int()` applied to an exact numeric value: truncation toward zero. -/
def pyInt (q : ℚ) : ℤ := if 0 ≤ q then ⌊q⌋ else ⌈q⌉

/-- Embedding of `_default_timestamp_mapper` (orchestrator.py line 356):
`return int(seconds * 10_000_000)`. -/
def defaultTimestampMapper (seconds : ℚ) : ℤ := pyInt (seconds * 10000000)

/-- The fields of `NDIStreamConfig` consulted by the `_NDIStream` pacing logic. -/
structure PacingConfig where
  throttleWhenInactive : Bool
  pauseWhenInactive : Bool
  inactiveConnectionPollInterval : ℚ

/-- Embedding of the `NDIStreamMetrics` dataclass. -/
structure NDIStreamMetrics where
  framesSent : ℕ
  framesSuppressed : ℕ
  lastConnectionCount : ℤ
  lastSendTimestamp : Option ℤ
  lastActivityTime : ℚ
  pausedForInactivity : Bool
  deriving DecidableEq, Repr

/-- The mutable attributes of `_NDIStream`.  `lastConnectionCheck = none`
models the initial `float("-inf")` (no poll has happened yet). -/
structure StreamState where
  lastConnectionCheck : Option ℚ
  lastConnectionCount : ℤ
  lastProgressState : Bool
  metrics : NDIStreamMetrics
  deriving DecidableEq, Repr

/-- Embedding of `_NDIStream.__init__`: the initial book-keeping state
(`t0` is what `self._time_provider()` returned at construction). -/
def initialState (t0 : ℚ) : StreamState :=
  { lastConnectionCheck := none
    lastConnectionCount := -1
    lastProgressState := true
    metrics :=
      { framesSent := 0
        framesSuppressed := 0
        lastConnectionCount := -1
        lastSendTimestamp := none
        lastActivityTime := t0
        pausedForInactivity := false } }

/-- Embedding of `_NDIStream._poll_connection_count`.  `queryResult` is the
value `_query_connection_count` would return on this tick (it already folds a
failed or absent sender capability into `-1`).  Returns the connection count
used by the tick together with the updated state. -/
def pollConnectionCount (cfg : PacingConfig) (s : StreamState) (now : ℚ)
    (queryResult : ℤ) : ℤ × StreamState :=
  let interval := max 0 cfg.inactiveConnectionPollInterval
  let due : Bool :=
    match s.lastConnectionCheck with
    | none => true
    | some c => decide (interval ≤ now - c)
  if due then
    (queryResult,
      { s with lastConnectionCheck := some now, lastConnectionCount := queryResult })
  else
    (s.lastConnectionCount, s)

/-- Embedding of `_NDIStream._should_send_frames`. -/
def shouldSendFrames (cfg : PacingConfig) (connectionCount : ℤ) : Bool :=
  if !cfg.throttleWhenInactive then true
  else if connectionCount < 0 then true
  else decide (connectionCount > 0)

/-- Embedding of `_NDIStream._set_inactivity_pause` (the best-effort
`renderer.set_paused` notification has no bearing on the stream state). -/
def setInactivityPause (s : StreamState) (shouldPause : Bool) : StreamState :=
  if shouldPause = s.metrics.pausedForInactivity then s
  else { s with metrics := { s.metrics with pausedForInactivity := shouldPause } }

/-- Collaborator responses consumed by one `advance_and_send` tick. -/
structure TickInput where
  now : ℚ
  advanceResult : Bool
  queryResult : ℤ
  deriving DecidableEq, Repr

/-- Observable effects of one `advance_and_send` tick. -/
structure TickOutput where
  progressed : Bool
  advanceCalled : Bool
  sent : Bool
  ndiTimestamp : ℤ
  deriving DecidableEq, Repr

/-- Embedding of `_NDIStream.advance_and_send` (orchestrator.py lines
198-235), with `timestamp` already resolved into `inp.now` and the default
timestamp mapper in place. -/
def advanceAndSend (cfg : PacingConfig) (s : StreamState) (inp : TickInput) :
    StreamState × TickOutput :=
  let ndiTimestamp := defaultTimestampMapper inp.now
  let polled := pollConnectionCount cfg s inp.now inp.queryResult
  let connectionCount := polled.1
  let s1 := polled.2
  let shouldSend := shouldSendFrames cfg connectionCount
  let shouldPause := cfg.pauseWhenInactive && !shouldSend
  let s2 := setInactivityPause s1 shouldPause
  let progressed := if shouldPause then s2.lastProgressState else inp.advanceResult
  let s3 := if shouldPause then s2 else { s2 with lastProgressState := inp.advanceResult }
  let s4 :=
    if shouldSend then
      { s3 with metrics :=
          { s3.metrics with
              framesSent := s3.metrics.framesSent + 1
              lastSendTimestamp := some ndiTimestamp } }
    else
      { s3 with metrics :=
          { s3.metrics with framesSuppressed := s3.metrics.framesSuppressed + 1 } }
  let s5 :=
    { s4 with metrics :=
        { s4.metrics with
            lastConnectionCount := connectionCount
            lastActivityTime := inp.now } }
  (s5,
    { progressed := progressed
      advanceCalled := !shouldPause
      sent := shouldSend
      ndiTimestamp := ndiTimestamp })

/-- A sequence of `advance_and_send` ticks folded over the stream state. -/
def runTicks (cfg : PacingConfig) (s : StreamState) : List TickInput → StreamState
  | [] => s
  | inp :: rest => runTicks cfg (advanceAndSend cfg s inp).1 rest

/-! ### Frame-rate validation (`NDIStreamConfig.__post_init__`, lines 121-128)

The Python code delegates to `fractions.Fraction`; the relevant stdlib
behaviour (exact conversion, `limit_denominator`, and the exceptions raised
for `nan` / infinities / a zero denominator) is embedded below following
CPython's `fractions.py`. -/

/-- A Python `float` argument: either a finite value (an exact rational) or
one of the non-finite sentinels. -/
inductive PyFloat where
  | finite (q : ℚ)
  | nan
  | posInf
  | negInf
  deriving DecidableEq, Repr

/-- The continued-fraction loop of CPython `Fraction.limit_denominator`.
`fuel` only bounds recursion; `q.den` iterations always suffice because the
remainder `d` strictly decreases. -/
def limitDenominatorLoop (maxDen : ℤ) :
    ℕ → ℤ × ℤ × ℤ × ℤ → ℤ × ℤ → ℤ × ℤ × ℤ × ℤ × ℤ × ℤ
  | 0, (p0, q0, p1, q1), (n, d) => (p0, q0, p1, q1, n, d)
  | fuel + 1, (p0, q0, p1, q1), (n, d) =>
    let a := Int.fdiv n d
    let q2 := q0 + a * q1
    if maxDen < q2 then (p0, q0, p1, q1, n, d)
    else limitDenominatorLoop maxDen fuel (p1, q1, p0 + a * p1, q2) (d, n - a * d)

/-- CPython `Fraction.limit_denominator(max_denominator=1000000)`. -/
def limitDenominator (q : ℚ) (maxDen : ℤ) : ℚ :=
  if (q.den : ℤ) ≤ maxDen then q
  else
    let r := limitDenominatorLoop maxDen q.den (0, 1, 1, 0) (q.num, (q.den : ℤ))
    let p0 := r.1; let q0 := r.2.1; let p1 := r.2.2.1; let q1 := r.2.2.2.1
    let d := r.2.2.2.2.2
    let k := Int.fdiv (maxDen - q0) q1
    if 2 * d * (q0 + k * q1) ≤ (q.den : ℤ) then Rat.divInt p1 q1
    else Rat.divInt (p0 + k * p1) (q0 + k * q1)

/-- The `frame_rate` value supplied to `NDIStreamConfig`, by Python type. -/
inductive FrameRateValue where
  | none
  | fraction (q : ℚ)
  | pair (n d : ℤ)
  | float (x : PyFloat)
  | int (n : ℤ)
  | other
  deriving DecidableEq, Repr

/-- The exception classes that the frame-rate branch of `__post_init__` (or
the stdlib `Fraction` constructor it calls) can raise. -/
inductive ConfigError where
  | valueError
  | typeError
  | zeroDivisionError
  | overflowError
  deriving DecidableEq, Repr

/-- Embedding of the frame-rate normalisation in `NDIStreamConfig.__post_init__`
(orchestrator.py lines 121-128): a `Fraction` passes through unchanged, a
tuple becomes `Fraction(t[0], t[1])`, a float or int becomes
`Fraction(value).limit_denominator()`, any other non-`None` value raises
`TypeError`.  Returns the final `frame_rate` attribute on success. -/
def normalizeFrameRate : FrameRateValue → Except ConfigError (Option ℚ)
  | .none => .ok Option.none
  | .fraction q => .ok (some q)
  | .pair n d =>
      if d = 0 then .error .zeroDivisionError
      else .ok (some (Rat.divInt n d))
  | .float .nan => .error .valueError
  | .float .posInf => .error .overflowError
  | .float .negInf => .error .overflowError
  | .float (.finite q) => .ok (some (limitDenominator q 1000000))
  | .int n => .ok (some (limitDenominator (n : ℚ) 1000000))
  | .other => .error .typeError

/-! ### State-machine input dispatch (`_set_state_machine_input`, lines 146-167) -/

/-- A Python value supplied as a state-machine input.  `bool` is listed
separately because the source checks `isinstance(value, bool)` before the
numeric branch (Python's `bool` is a subclass of `int`). -/
inductive InputValue where
  | bool (b : Bool)
  | int (n : ℤ)
  | float (q : ℚ)
  | str (s : String)
  | other
  deriving DecidableEq, Repr

/-- Which optional renderer methods are callable, probed via `getattr`. -/
structure RendererCaps where
  hasSetBoolInput : Bool
  hasSetNumberInput : Bool
  hasFireTriggerInput : Bool
  hasFireTrigger : Bool
  deriving DecidableEq, Repr

/-- The renderer call issued by `_set_state_machine_input` on success. -/
inductive InputCall where
  | setBoolInput (name : String) (b : Bool)
  | setNumberInput (name : String) (x : ℚ)
  | fireTriggerInput (name : String)
  | fireTrigger (name : String)
  deriving DecidableEq, Repr

/-- The exceptions `_set_state_machine_input` can raise itself. -/
inductive InputError where
  | runtimeError (msg : String)
  | valueError (msg : String)
  deriving DecidableEq, Repr

/-- Python `str.lower()` on one character, for the ASCII range relevant to the
`"trigger"` comparison. -/
def pyLowerChar (c : Char) : Char :=
  if 'A' ≤ c ∧ c ≤ 'Z' then Char.ofNat (c.toNat + 32) else c

/-- Python `str.lower()` restricted to ASCII case mapping. -/
def pyLower (s : String) : String := String.mk (s.data.map pyLowerChar)

/-- Embedding of `_set_state_machine_input` (orchestrator.py lines 146-167),
returning the renderer call it performs (whose boolean result the caller
receives) or the exception it raises. -/
def setStateMachineInput (caps : RendererCaps) (name : String) :
    InputValue → Except InputError InputCall
  | .bool b =>
      if caps.hasSetBoolInput then .ok (.setBoolInput name b)
      else .error (.runtimeError "Renderer does not expose set_bool_input")
  | .int n =>
      if caps.hasSetNumberInput then .ok (.setNumberInput name (n : ℚ))
      else .error (.runtimeError "Renderer does not expose set_number_input")
  | .float q =>
      if caps.hasSetNumberInput then .ok (.setNumberInput name q)
      else .error (.runtimeError "Renderer does not expose set_number_input")
  | .str s =>
      if pyLower s = "trigger" then
        if caps.hasFireTriggerInput then .ok (.fireTriggerInput name)
        else if caps.hasFireTrigger then .ok (.fireTrigger name)
        else .error (.runtimeError "Renderer does not expose trigger inputs")
      else .error (.valueError "Unsupported input value type")
  | .other => .error (.valueError "Unsupported input value type")

/-! ### Renderer initialization and stream registration
(`NDIOrchestrator.add_stream` lines 512-523, `_initialise_renderer` lines
573-596) -/

/-- The configuration fields consumed by `_initialise_renderer`.  Optional
string selectors are `Option String`; the source guards them with Python
truthiness, so `some ""` behaves like `none`. -/
structure InitConfig where
  name : String
  animation : Option String
  loopAnimation : Bool
  stateMachine : Option String
  stateMachineInputs : List (String × InputValue)

/-- The boolean results an injected renderer would return for the calls made
during initialization. -/
structure RendererBehavior where
  caps : RendererCaps
  playAnimationOk : String → Bool → Bool
  playStateMachineOk : String → Bool
  inputOk : InputCall → Bool

/-- The exceptions `_initialise_renderer` can raise: a `RuntimeError` naming
the animation / state machine / input that failed, or an exception escaping
`_set_state_machine_input` itself. -/
inductive InitError where
  | animationFailed (name : String)
  | stateMachineFailed (name : String)
  | inputFailed (name : String)
  | inputDispatchError (e : InputError)
  deriving DecidableEq, Repr

/-- The `for input_name, value in config.state_machine_inputs.items()` loop of
`_initialise_renderer` (lines 591-593). -/
def applyInitialInputs (rb : RendererBehavior) :
    List (String × InputValue) → Except InitError Unit
  | [] => .ok ()
  | (n, v) :: rest =>
      match setStateMachineInput rb.caps n v with
      | .error e => .error (.inputDispatchError e)
      | .ok call =>
          if rb.inputOk call then applyInitialInputs rb rest
          else .error (.inputFailed n)

/-- The `if config.animation:` block of `_initialise_renderer` (lines
581-584); Python truthiness skips both `none` and the empty string. -/
def playAnimationStep (cfg : InitConfig) (rb : RendererBehavior) :
    Except InitError Unit :=
  match cfg.animation with
  | some a =>
      if a ≠ "" then
        if rb.playAnimationOk a cfg.loopAnimation then .ok ()
        else .error (.animationFailed a)
      else .ok ()
  | none => .ok ()

/-- The `if config.state_machine:` block of `_initialise_renderer` (lines
586-589). -/
def playStateMachineStep (cfg : InitConfig) (rb : RendererBehavior) :
    Except InitError Unit :=
  match cfg.stateMachine with
  | some m =>
      if m ≠ "" then
        if rb.playStateMachineOk m then .ok ()
        else .error (.stateMachineFailed m)
      else .ok ()
  | none => .ok ()

/-- Embedding of `NDIOrchestrator._initialise_renderer` (lines 573-596).
Loading the animation source and the final best-effort `set_paused(False)`
have no failure modes in the collaborator model. -/
def initialiseRenderer (cfg : InitConfig) (rb : RendererBehavior) :
    Except InitError Unit :=
  match playAnimationStep cfg rb with
  | .error e => .error e
  | .ok _ =>
      match playStateMachineStep cfg rb with
      | .error e => .error e
      | .ok _ => applyInitialInputs rb cfg.stateMachineInputs

/-- The exceptions `add_stream` can raise. -/
inductive AddError where
  | duplicateName (name : String)
  | initFailure (e : InitError)
  deriving DecidableEq, Repr

/-- Result of an `add_stream` call: the registry of stream names afterwards,
the exception raised if any, and whether the renderer factory was invoked. -/
structure AddStreamResult where
  streams : List String
  error : Option AddError
  rendererConstructed : Bool
  deriving DecidableEq

/-- Embedding of `NDIOrchestrator.add_stream` (lines 512-523) restricted to
registry membership: the duplicate-name check precedes renderer construction,
and `self._streams[config.name] = stream` runs only after `_initialise_renderer`
(and the factories) succeeded. -/
def addStream (streams : List String) (cfg : InitConfig) (rb : RendererBehavior) :
    AddStreamResult :=
  if cfg.name ∈ streams then
    { streams := streams, error := some (.duplicateName cfg.name), rendererConstructed := false }
  else
    match initialiseRenderer cfg rb with
    | .error e =>
        { streams := streams, error := some (.initFailure e), rendererConstructed := true }
    | .ok _ =>
        { streams := streams ++ [cfg.name], error := none, rendererConstructed := true }

/-! ### Stream teardown (`_NDIStream.close` lines 300-307,
`NDIOrchestrator.remove_stream` lines 525-527) -/

/-- Collaborator calls observable during `_NDIStream.close`. -/
inductive TeardownEvent where
  | sinkClose
  | rendererStop
  deriving DecidableEq, Repr

/-- Failure behaviour of a registered stream's collaborators at teardown. -/
structure StreamSpec where
  sinkCloseFails : Bool
  rendererHasStop : Bool
  deriving DecidableEq, Repr

/-- Embedding of `_NDIStream.close` (lines 300-307): `sender_handle.close()`
inside `try`, then the `finally` block clears the inactivity pause and calls
`renderer.stop` when it is callable; a sink-close exception is re-raised after
the `finally` block ran.  Returns the ordered collaborator calls and whether
an exception propagates. -/
def streamClose (spec : StreamSpec) : List TeardownEvent × Bool :=
  ([TeardownEvent.sinkClose] ++
      (if spec.rendererHasStop then [TeardownEvent.rendererStop] else []),
    spec.sinkCloseFails)

/-- Embedding of `NDIOrchestrator.remove_stream` (lines 525-527):
`self._streams.pop(name)` raises `KeyError` for an unknown name, otherwise the
stream is deregistered and closed.  On success returns the remaining registry,
the teardown events, and whether the sink-close exception propagates. -/
def removeStream (streams : List (String × StreamSpec)) (name : String) :
    Except String (List (String × StreamSpec) × List TeardownEvent × Bool) :=
  match streams.lookup name with
  | Option.none => .error ("KeyError: " ++ name)
  | some spec =>
      .ok (streams.eraseP (fun p => p.1 == name), streamClose spec)

/-! ## Helper lemmas -/

/-- One tick bumps exactly one of the two frame counters by one. -/
lemma step_counters (cfg : PacingConfig) (s : StreamState) (inp : TickInput) :
    ((advanceAndSend cfg s inp).1.metrics.framesSent = s.metrics.framesSent + 1 ∧
     (advanceAndSend cfg s inp).1.metrics.framesSuppressed = s.metrics.framesSuppressed) ∨
    ((advanceAndSend cfg s inp).1.metrics.framesSent = s.metrics.framesSent ∧
     (advanceAndSend cfg s inp).1.metrics.framesSuppressed = s.metrics.framesSuppressed + 1) := by
  unfold advanceAndSend pollConnectionCount setInactivityPause
  dsimp only
  split_ifs <;> simp

/-- With throttling disabled every tick sends. -/
lemma step_counters_throttle_off (cfg : PacingConfig) (s : StreamState)
    (inp : TickInput) (hcfg : cfg.throttleWhenInactive = false) :
    (advanceAndSend cfg s inp).1.metrics.framesSent = s.metrics.framesSent + 1 ∧
    (advanceAndSend cfg s inp).1.metrics.framesSuppressed = s.metrics.framesSuppressed := by
  unfold advanceAndSend pollConnectionCount setInactivityPause shouldSendFrames
  dsimp only
  rw [hcfg]
  split_ifs <;> simp_all

/-- Counter totals over a tick sequence, generalized over the start state. -/
lemma runTicks_counters (cfg : PacingConfig) (inputs : List TickInput) :
    ∀ s : StreamState,
      (runTicks cfg s inputs).metrics.framesSent +
        (runTicks cfg s inputs).metrics.framesSuppressed =
      s.metrics.framesSent + s.metrics.framesSuppressed + inputs.length := by
  induction inputs with
  | nil => intro s; simp [runTicks]
  | cons i rest ih =>
      intro s
      rw [runTicks, ih]
      rcases step_counters cfg s i with ⟨h1, h2⟩ | ⟨h1, h2⟩ <;>
        rw [h1, h2] <;> simp [List.length_cons] <;> omega

/-- Counter totals with throttling disabled, generalized over the start state. -/
lemma runTicks_throttle_off (cfg : PacingConfig)
    (hcfg : cfg.throttleWhenInactive = false) (inputs : List TickInput) :
    ∀ s : StreamState,
      (runTicks cfg s inputs).metrics.framesSent =
        s.metrics.framesSent + inputs.length ∧
      (runTicks cfg s inputs).metrics.framesSuppressed =
        s.metrics.framesSuppressed := by
  induction inputs with
  | nil => intro s; simp [runTicks]
  | cons i rest ih =>
      intro s
      rw [runTicks]
      obtain ⟨h1, h2⟩ := step_counters_throttle_off cfg s i hcfg
      obtain ⟨g1, g2⟩ := ih (advanceAndSend cfg s i).1
      refine ⟨?_, by rw [g2, h2]⟩
      rw [g1, h1]
      simp [List.length_cons]
      omega

/-! ## Claim theorems -/

/-- C1: for every stream, after any sequence of `advance_and_send` calls since
the stream's creation, `frames_sent + frames_suppressed` equals the number of
ticks delivered to that stream, and every single `advance_and_send` call
increments exactly one of the two counters by exactly one. -/
theorem claim1_counters_partition_ticks (cfg : PacingConfig) (t0 : ℚ) :
    (∀ (s : StreamState) (inp : TickInput),
      ((advanceAndSend cfg s inp).1.metrics.framesSent = s.metrics.framesSent + 1 ∧
       (advanceAndSend cfg s inp).1.metrics.framesSuppressed = s.metrics.framesSuppressed) ∨
      ((advanceAndSend cfg s inp).1.metrics.framesSent = s.metrics.framesSent ∧
       (advanceAndSend cfg s inp).1.metrics.framesSuppressed = s.metrics.framesSuppressed + 1)) ∧
    (∀ inputs : List TickInput,
      (runTicks cfg (initialState t0) inputs).metrics.framesSent +
        (runTicks cfg (initialState t0) inputs).metrics.framesSuppressed =
      inputs.length) := by
  refine ⟨step_counters cfg, fun inputs => ?_⟩
  rw [runTicks_counters cfg inputs (initialState t0)]
  simp [initialState]

/-- C2: the per-tick send decision — throttling disabled forces `should_send`,
a negative (unknown) connection count forces `should_send`, and otherwise
`should_send` holds iff the count is strictly positive; a tick's send flag is
exactly this decision applied to the polled count; and with throttling
disabled, `frames_sent` equals the number of `advance` calls while
`frames_suppressed` stays 0. -/
theorem claim2_send_decision (cfg : PacingConfig) (t0 : ℚ) :
    (∀ c : ℤ,
      (cfg.throttleWhenInactive = false → shouldSendFrames cfg c = true) ∧
      (c < 0 → shouldSendFrames cfg c = true) ∧
      (cfg.throttleWhenInactive = true → 0 ≤ c →
        (shouldSendFrames cfg c = true ↔ 0 < c))) ∧
    (∀ (s : StreamState) (inp : TickInput),
      (advanceAndSend cfg s inp).2.sent =
        shouldSendFrames cfg (pollConnectionCount cfg s inp.now inp.queryResult).1) ∧
    (cfg.throttleWhenInactive = false → ∀ inputs : List TickInput,
      (runTicks cfg (initialState t0) inputs).metrics.framesSent = inputs.length ∧
      (runTicks cfg (initialState t0) inputs).metrics.framesSuppressed = 0) := by
  refine ⟨fun c => ⟨?_, ?_, ?_⟩, fun s inp => ?_, fun hcfg inputs => ?_⟩
  · intro h; simp [shouldSendFrames, h]
  · intro h; unfold shouldSendFrames; split_ifs <;> simp_all
  · intro h hc; unfold shouldSendFrames; split_ifs <;> simp_all
    omega
  · unfold advanceAndSend
    dsimp only
  · obtain ⟨h1, h2⟩ := runTicks_throttle_off cfg hcfg inputs (initialState t0)
    rw [h1, h2]
    simp [initialState]

/-- C6: after every tick, `paused_for_inactivity` holds iff that tick
suppressed sending and `pause_when_inactive` was set; and on such a paused
tick the renderer's `advance` is not called and the tick returns the
remembered progress value. -/
theorem claim6_pause_invariant (cfg : PacingConfig) (s : StreamState)
    (inp : TickInput) :
    ((advanceAndSend cfg s inp).1.metrics.pausedForInactivity =
      (cfg.pauseWhenInactive && !(advanceAndSend cfg s inp).2.sent)) ∧
    ((advanceAndSend cfg s inp).1.metrics.pausedForInactivity = true →
      (advanceAndSend cfg s inp).2.advanceCalled = false ∧
      (advanceAndSend cfg s inp).2.progressed = s.lastProgressState) := by
  unfold advanceAndSend pollConnectionCount setInactivityPause
  dsimp only
  split_ifs <;> simp_all

/-- Witness for `claim6_pause_invariant`: a concrete paused tick (throttling
and `pause_when_inactive` on, zero connections reported) skips the renderer
and repeats the remembered progress value. -/
theorem claim6_pause_invariant_witness :
    (advanceAndSend ⟨true, true, 1⟩ (initialState 0) ⟨0, false, 0⟩).2.advanceCalled = false ∧
    (advanceAndSend ⟨true, true, 1⟩ (initialState 0) ⟨0, false, 0⟩).2.progressed =
      (initialState 0).lastProgressState :=
  (claim6_pause_invariant ⟨true, true, 1⟩ (initialState 0) ⟨0, false, 0⟩).2 (by decide)

/-- C10: a fresh stream remembers `last_progress_state = True`, so a first
tick that pauses for inactivity (pause and throttle flags set, zero
connections) reports progress `true` without the renderer's `advance` ever
having been called. -/
theorem claim10_first_tick_paused_returns_true (cfg : PacingConfig)
    (t0 now : ℚ) (adv : Bool)
    (hpause : cfg.pauseWhenInactive = true)
    (hthrottle : cfg.throttleWhenInactive = true) :
    (initialState t0).lastProgressState = true ∧
    (advanceAndSend cfg (initialState t0) ⟨now, adv, 0⟩).2.progressed = true ∧
    (advanceAndSend cfg (initialState t0) ⟨now, adv, 0⟩).2.advanceCalled = false ∧
    (advanceAndSend cfg (initialState t0) ⟨now, adv, 0⟩).2.sent = false := by
  unfold advanceAndSend pollConnectionCount setInactivityPause shouldSendFrames initialState
  dsimp only
  rw [hpause, hthrottle]
  norm_num

/-- Witness for `claim10_first_tick_paused_returns_true` at a concrete
configuration and tick. -/
theorem claim10_first_tick_witness :
    (initialState 0).lastProgressState = true ∧
    (advanceAndSend ⟨true, true, 1⟩ (initialState 0) ⟨0, false, 0⟩).2.progressed = true ∧
    (advanceAndSend ⟨true, true, 1⟩ (initialState 0) ⟨0, false, 0⟩).2.advanceCalled = false ∧
    (advanceAndSend ⟨true, true, 1⟩ (initialState 0) ⟨0, false, 0⟩).2.sent = false :=
  claim10_first_tick_paused_returns_true ⟨true, true, 1⟩ 0 0 false rfl rfl

/-- Truncation toward zero is monotone. -/
lemma pyInt_mono {x y : ℚ} (h : x ≤ y) : pyInt x ≤ pyInt y := by
  unfold pyInt
  rcases le_or_lt 0 x with hx | hx <;> rcases le_or_lt 0 y with hy | hy
  · rw [if_pos hx, if_pos hy]; exact Int.floor_mono h
  · exact absurd (hx.trans h) (not_le.mpr hy)
  · rw [if_neg (not_le.mpr hx), if_pos hy]
    have h1 : ⌈x⌉ ≤ 0 := Int.ceil_le.mpr (by exact_mod_cast hx.le)
    have h2 : (0 : ℤ) ≤ ⌊y⌋ := Int.floor_nonneg.mpr hy
    omega
  · rw [if_neg (not_le.mpr hx), if_neg (not_le.mpr hy)]; exact Int.ceil_mono h

/-- C3 counterexample: the claim says the default mapper rounds to the nearest
100 ns tick, but `int()` truncates.  At `seconds = 2⁻²⁴` (an exact IEEE-754
double whose product with 10 000 000 is also exact, namely 78125/131072 ≈
0.596) the code returns 0 while rounding would return 1. -/
theorem claim3_round_counterexample :
    defaultTimestampMapper (1 / 16777216) = 0 ∧
    round ((1 / 16777216 : ℚ) * 10000000) = 1 ∧
    defaultTimestampMapper (1 / 16777216) ≠ round ((1 / 16777216 : ℚ) * 10000000) := by
  refine ⟨?_, ?_, ?_⟩
  · norm_num [defaultTimestampMapper, pyInt]
  · rw [round_eq]; norm_num
  · rw [round_eq]; norm_num [defaultTimestampMapper, pyInt]

/-- C3 (amended): for every input `seconds`, the default timestamp mapper
returns `seconds × 10,000,000` truncated toward zero — the floor for
nonnegative inputs, the ceiling for negative ones — hence within one
100-nanosecond tick of the exact product. -/
theorem claim3_truncating_mapper (s : ℚ) :
    |(defaultTimestampMapper s : ℚ) - s * 10000000| < 1 ∧
    (0 ≤ s → defaultTimestampMapper s = ⌊s * 10000000⌋) ∧
    (s < 0 → defaultTimestampMapper s = ⌈s * 10000000⌉) := by
  unfold defaultTimestampMapper pyInt
  rcases le_or_lt 0 (s * 10000000) with hq | hq
  · rw [if_pos hq]
    refine ⟨abs_lt.mpr ⟨by linarith [Int.sub_one_lt_floor (s * 10000000)],
      by linarith [Int.floor_le (s * 10000000)]⟩, fun _ => rfl, fun hs => ?_⟩
    exact absurd hq (not_le.mpr (mul_neg_of_neg_of_pos hs (by norm_num)))
  · rw [if_neg (not_le.mpr hq)]
    refine ⟨abs_lt.mpr ⟨by linarith [Int.le_ceil (s * 10000000)],
      by linarith [Int.ceil_lt_add_one (s * 10000000)]⟩, fun hs => ?_, fun _ => rfl⟩
    exact absurd (mul_nonneg hs (by norm_num)) (not_le.mpr hq)

/-- Witness for `claim3_truncating_mapper` at `seconds = 1/2`. -/
theorem claim3_truncating_mapper_witness :
    |(defaultTimestampMapper (1 / 2) : ℚ) - (1 / 2) * 10000000| < 1 ∧
    defaultTimestampMapper (1 / 2 : ℚ) = ⌊(1 / 2 : ℚ) * 10000000⌋ :=
  ⟨(claim3_truncating_mapper (1 / 2)).1,
    (claim3_truncating_mapper (1 / 2)).2.1 (by norm_num)⟩

/-- C4: the default timestamp mapper is monotone — for `s1 < s2`,
`map(s1) ≤ map(s2)`. -/
theorem claim4_mapper_monotone (s1 s2 : ℚ) (h : s1 < s2) :
    defaultTimestampMapper s1 ≤ defaultTimestampMapper s2 :=
  pyInt_mono (mul_le_mul_of_nonneg_right h.le (by norm_num))

/-- Witness for `claim4_mapper_monotone` at `0 < 1`. -/
theorem claim4_mapper_monotone_witness :
    defaultTimestampMapper 0 ≤ defaultTimestampMapper 1 :=
  claim4_mapper_monotone 0 1 (by norm_num)

/-- C2 witness: three throttling-disabled ticks yield `frames_sent = 3` and
`frames_suppressed = 0`. -/
theorem claim2_send_decision_witness :
    (runTicks ⟨false, false, 1⟩ (initialState 0)
      [⟨0, true, 0⟩, ⟨1, true, 0⟩, ⟨2, true, 0⟩]).metrics.framesSent = 3 ∧
    (runTicks ⟨false, false, 1⟩ (initialState 0)
      [⟨0, true, 0⟩, ⟨1, true, 0⟩, ⟨2, true, 0⟩]).metrics.framesSuppressed = 0 :=
  (claim2_send_decision ⟨false, false, 1⟩ 0).2.2 rfl
    [⟨0, true, 0⟩, ⟨1, true, 0⟩, ⟨2, true, 0⟩]

/-- C5 (code bug): contrary to the spec and to the repository's own tests
(`test_stream_config_normalises_zero_frame_rate_to_none`,
`test_stream_config_rejects_negative_fraction`), `__post_init__` keeps a zero
frame rate as `Fraction(0, 1)` instead of normalizing it to `None`, and
accepts a negative frame rate without raising. -/
theorem claim5_frame_rate_not_validated :
    normalizeFrameRate (.int 0) = .ok (some 0) ∧
    normalizeFrameRate (.fraction 0) = .ok (some 0) ∧
    normalizeFrameRate (.fraction (-1)) = .ok (some (-1)) :=
  ⟨rfl, rfl, rfl⟩

/-- A lookup misses when the key is absent from the association list. -/
lemma lookup_eq_none_of_not_mem_keys {l : List (String × StreamSpec)}
    {name : String} (h : name ∉ l.map Prod.fst) : l.lookup name = Option.none := by
  induction l with
  | nil => rfl
  | cons p rest ih =>
      obtain ⟨k, v⟩ := p
      simp only [List.map_cons, List.mem_cons, not_or] at h
      rw [List.lookup_cons, beq_false_of_ne h.1]
      exact ih h.2

/-- With pairwise-distinct keys, erasing a key's entry makes its lookup miss. -/
lemma lookup_eraseP_self {l : List (String × StreamSpec)} {name : String}
    (h : (l.map Prod.fst).Nodup) :
    (l.eraseP (fun p => p.1 == name)).lookup name = Option.none := by
  induction l with
  | nil => rfl
  | cons p rest ih =>
      obtain ⟨k, v⟩ := p
      simp only [List.map_cons, List.nodup_cons] at h
      by_cases hk : k = name
      · subst hk
        rw [List.eraseP_cons_of_pos (by simp)]
        exact lookup_eq_none_of_not_mem_keys h.1
      · rw [List.eraseP_cons_of_neg (by simpa using hk)]
        rw [List.lookup_cons, beq_false_of_ne (fun e => hk e.symm)]
        exact ih h.2

/-- C7: `remove_stream` deregisters the stream and closes it — the sink is
closed first, the renderer's `stop` still executes afterwards even when the
sink close raises, and that exception then propagates to the caller; a second
`remove_stream` of the same name is a `KeyError`, not a no-op. -/
theorem claim7_remove_stream_teardown (streams : List (String × StreamSpec))
    (name : String) (spec : StreamSpec)
    (hkeys : (streams.map Prod.fst).Nodup)
    (hlookup : streams.lookup name = some spec) :
    removeStream streams name =
      .ok (streams.eraseP (fun p => p.1 == name),
        [TeardownEvent.sinkClose] ++
          (if spec.rendererHasStop then [TeardownEvent.rendererStop] else []),
        spec.sinkCloseFails) ∧
    (spec.rendererHasStop = true →
      (streamClose spec).1 = [TeardownEvent.sinkClose, TeardownEvent.rendererStop]) ∧
    (streamClose spec).2 = spec.sinkCloseFails ∧
    removeStream (streams.eraseP (fun p => p.1 == name)) name =
      .error ("KeyError: " ++ name) := by
  refine ⟨?_, fun hstop => by simp [streamClose, hstop], rfl, ?_⟩
  · unfold removeStream
    rw [hlookup]
    rfl
  · unfold removeStream
    rw [lookup_eraseP_self hkeys]

/-- Witness for `claim7_remove_stream_teardown`: removing a registered stream
whose sink close fails still stops the renderer and re-raises; removing it a
second time is a `KeyError`. -/
theorem claim7_remove_stream_witness :
    removeStream [("s", ⟨true, true⟩)] "s" =
      .ok ([], [TeardownEvent.sinkClose, TeardownEvent.rendererStop], true) ∧
    removeStream ([("s", (⟨true, true⟩ : StreamSpec))].eraseP (fun p => p.1 == "s")) "s" =
      .error ("KeyError: " ++ "s") := by
  have h := claim7_remove_stream_teardown [("s", ⟨true, true⟩)] "s" ⟨true, true⟩
    (by simp) rfl
  exact ⟨h.1, h.2.2.2⟩

/-- C8: `set_input` dispatches on the type of the value — a boolean calls the
boolean-input setter, a non-boolean number calls the numeric-input setter
(after `float(value)` conversion), the string `"trigger"` in any letter case
fires the trigger input, falling back to the legacy `fire_trigger` when
`fire_trigger_input` is absent, and every other value (including any other
string) raises the unsupported-value-type `ValueError`. -/
theorem claim8_set_input_dispatch (caps : RendererCaps) (name : String) :
    (∀ b : Bool, caps.hasSetBoolInput = true →
      setStateMachineInput caps name (.bool b) = .ok (.setBoolInput name b)) ∧
    (∀ n : ℤ, caps.hasSetNumberInput = true →
      setStateMachineInput caps name (.int n) = .ok (.setNumberInput name (n : ℚ))) ∧
    (∀ q : ℚ, caps.hasSetNumberInput = true →
      setStateMachineInput caps name (.float q) = .ok (.setNumberInput name q)) ∧
    (∀ s : String, pyLower s = "trigger" → caps.hasFireTriggerInput = true →
      setStateMachineInput caps name (.str s) = .ok (.fireTriggerInput name)) ∧
    (∀ s : String, pyLower s = "trigger" → caps.hasFireTriggerInput = false →
      caps.hasFireTrigger = true →
      setStateMachineInput caps name (.str s) = .ok (.fireTrigger name)) ∧
    (∀ s : String, pyLower s ≠ "trigger" →
      setStateMachineInput caps name (.str s) =
        .error (.valueError "Unsupported input value type")) ∧
    setStateMachineInput caps name .other =
      .error (.valueError "Unsupported input value type") := by
  refine ⟨fun b hb => ?_, fun n hn => ?_, fun q hn => ?_, fun s hs hp => ?_,
    fun s hs hp hl => ?_, fun s hs => ?_, rfl⟩ <;>
    simp [setStateMachineInput, *]

/-- Witness for `claim8_set_input_dispatch`: concrete dispatches for a
boolean, a number, a mixed-case trigger, the legacy trigger fallback, and an
unsupported string. -/
theorem claim8_set_input_dispatch_witness :
    setStateMachineInput ⟨true, true, true, true⟩ "armed" (.bool true) =
      .ok (.setBoolInput "armed" true) ∧
    setStateMachineInput ⟨true, true, true, true⟩ "level" (.float (1 / 2)) =
      .ok (.setNumberInput "level" (1 / 2)) ∧
    setStateMachineInput ⟨true, true, true, true⟩ "bang" (.str "TrIgGeR") =
      .ok (.fireTriggerInput "bang") ∧
    setStateMachineInput ⟨true, true, false, true⟩ "bang" (.str "trigger") =
      .ok (.fireTrigger "bang") ∧
    setStateMachineInput ⟨true, true, true, true⟩ "x" (.str "bogus") =
      .error (.valueError "Unsupported input value type") :=
  ⟨(claim8_set_input_dispatch ⟨true, true, true, true⟩ "armed").1 true rfl,
    (claim8_set_input_dispatch ⟨true, true, true, true⟩ "level").2.2.1 (1 / 2) rfl,
    (claim8_set_input_dispatch ⟨true, true, true, true⟩ "bang").2.2.2.1 "TrIgGeR"
      (by decide) rfl,
    (claim8_set_input_dispatch ⟨true, true, false, true⟩ "bang").2.2.2.2.1 "trigger"
      (by decide) rfl rfl,
    (claim8_set_input_dispatch ⟨true, true, true, true⟩ "x").2.2.2.2.2.1 "bogus"
      (by decide)⟩

/-- An error from the animation block names the configured animation. -/
lemma playAnimationStep_error_name (cfg : InitConfig) (rb : RendererBehavior)
    (e : InitError) (h : playAnimationStep cfg rb = .error e) :
    ∃ a, e = .animationFailed a ∧ cfg.animation = some a := by
  unfold playAnimationStep at h
  cases ha : cfg.animation with
  | none => rw [ha] at h; exact absurd h (by simp)
  | some a =>
      rw [ha] at h
      dsimp only at h
      split_ifs at h
      simp_all

/-- An error from the state-machine block names the configured state machine. -/
lemma playStateMachineStep_error_name (cfg : InitConfig) (rb : RendererBehavior)
    (e : InitError) (h : playStateMachineStep cfg rb = .error e) :
    ∃ m, e = .stateMachineFailed m ∧ cfg.stateMachine = some m := by
  unfold playStateMachineStep at h
  cases hm : cfg.stateMachine with
  | none => rw [hm] at h; exact absurd h (by simp)
  | some m =>
      rw [hm] at h
      dsimp only at h
      split_ifs at h
      simp_all

/-- An error from the initial-inputs loop names one of the configured inputs,
or is an exception escaping `_set_state_machine_input`. -/
lemma applyInitialInputs_error_cases (rb : RendererBehavior) :
    ∀ (l : List (String × InputValue)) (e : InitError),
      applyInitialInputs rb l = .error e →
      (∃ n, e = .inputFailed n ∧ n ∈ l.map Prod.fst) ∨
      ∃ e', e = .inputDispatchError e' := by
  intro l
  induction l with
  | nil => intro e h; exact absurd h (by simp [applyInitialInputs])
  | cons p rest ih =>
      intro e h
      obtain ⟨n, v⟩ := p
      unfold applyInitialInputs at h
      cases hs : setStateMachineInput rb.caps n v with
      | error e' =>
          rw [hs] at h
          dsimp only at h
          right
          exact ⟨e', by simpa using h.symm⟩
      | ok call =>
          rw [hs] at h
          dsimp only at h
          by_cases hc : rb.inputOk call
          · rw [if_pos hc] at h
            rcases ih e h with ⟨m, hm, hmem⟩ | he
            · exact Or.inl ⟨m, hm, by simp [hmem]⟩
            · exact Or.inr he
          · rw [if_neg hc] at h
            exact Or.inl ⟨n, by simpa using h.symm, by simp⟩

/-- Any `_initialise_renderer` failure names the offending animation, state
machine, or input (or is an exception escaping the input dispatcher). -/
lemma initialiseRenderer_error_cases (cfg : InitConfig) (rb : RendererBehavior)
    (e : InitError) (h : initialiseRenderer cfg rb = .error e) :
    (∃ a, e = .animationFailed a ∧ cfg.animation = some a) ∨
    (∃ m, e = .stateMachineFailed m ∧ cfg.stateMachine = some m) ∨
    (∃ n, e = .inputFailed n ∧ n ∈ cfg.stateMachineInputs.map Prod.fst) ∨
    (∃ e', e = .inputDispatchError e') := by
  unfold initialiseRenderer at h
  cases hpa : playAnimationStep cfg rb with
  | error ea =>
      rw [hpa] at h
      dsimp only at h
      obtain ⟨a, hae, hacfg⟩ := playAnimationStep_error_name cfg rb ea hpa
      exact Or.inl ⟨a, by simp_all, hacfg⟩
  | ok u =>
      rw [hpa] at h
      dsimp only at h
      cases hps : playStateMachineStep cfg rb with
      | error em =>
          rw [hps] at h
          dsimp only at h
          obtain ⟨m, hme, hmcfg⟩ := playStateMachineStep_error_name cfg rb em hps
          exact Or.inr (Or.inl ⟨m, by simp_all, hmcfg⟩)
      | ok u2 =>
          rw [hps] at h
          dsimp only at h
          rcases applyInitialInputs_error_cases rb cfg.stateMachineInputs e h with
            ⟨n, hn, hmem⟩ | ⟨e', he'⟩
          · exact Or.inr (Or.inr (Or.inl ⟨n, hn, hmem⟩))
          · exact Or.inr (Or.inr (Or.inr ⟨e', he'⟩))

/-- C9: `add_stream` rejects a duplicate name before constructing the
renderer; any initialization failure leaves the registry unchanged (the
stream is never registered) and the raised error names the offending
animation, state machine, or input; only a fully successful call registers
the name. -/
theorem claim9_add_stream_atomic (streams : List String) (cfg : InitConfig)
    (rb : RendererBehavior) :
    (cfg.name ∈ streams →
      addStream streams cfg rb =
        ⟨streams, some (.duplicateName cfg.name), false⟩) ∧
    ((addStream streams cfg rb).error.isSome →
      (addStream streams cfg rb).streams = streams) ∧
    ((addStream streams cfg rb).error = Option.none →
      (addStream streams cfg rb).streams = streams ++ [cfg.name]) ∧
    (∀ e, initialiseRenderer cfg rb = .error e →
      (∃ a, e = .animationFailed a ∧ cfg.animation = some a) ∨
      (∃ m, e = .stateMachineFailed m ∧ cfg.stateMachine = some m) ∨
      (∃ n, e = .inputFailed n ∧ n ∈ cfg.stateMachineInputs.map Prod.fst) ∨
      (∃ e', e = .inputDispatchError e')) := by
  refine ⟨fun hmem => ?_, ?_, ?_, initialiseRenderer_error_cases cfg rb⟩
  · unfold addStream
    rw [if_pos hmem]
  · unfold addStream
    by_cases hmem : cfg.name ∈ streams
    · rw [if_pos hmem]; intro _; rfl
    · rw [if_neg hmem]
      cases hinit : initialiseRenderer cfg rb <;> dsimp only <;> simp
  · unfold addStream
    by_cases hmem : cfg.name ∈ streams
    · rw [if_pos hmem]; intro hnone; exact absurd hnone (by simp)
    · rw [if_neg hmem]
      cases hinit : initialiseRenderer cfg rb <;> dsimp only <;> simp

/-- Witness for `claim9_add_stream_atomic`: a duplicate registration is
rejected without constructing a renderer, and a failing animation leaves the
registry unchanged while naming the animation. -/
theorem claim9_add_stream_atomic_witness :
    addStream ["a"] ⟨"a", Option.none, true, Option.none, []⟩
        ⟨⟨true, true, true, true⟩, fun _ _ => true, fun _ => true, fun _ => true⟩ =
      ⟨["a"], some (.duplicateName "a"), false⟩ ∧
    (addStream []
        ⟨"b", some "spin", true, Option.none, []⟩
        ⟨⟨true, true, true, true⟩, fun _ _ => false, fun _ => true, fun _ => true⟩).streams =
      [] :=
  ⟨(claim9_add_stream_atomic ["a"] ⟨"a", Option.none, true, Option.none, []⟩
      ⟨⟨true, true, true, true⟩, fun _ _ => true, fun _ => true, fun _ => true⟩).1
      (by simp),
    (claim9_add_stream_atomic []
      ⟨"b", some "spin", true, Option.none, []⟩
      ⟨⟨true, true, true, true⟩, fun _ _ => false, fun _ => true, fun _ => true⟩).2.1
      (by decide)⟩

end YupNdi
